import Mathlib

/-!
Verification of the multirotor sizing notebook
(06_SystemSizingCodeOptimization-Reference.ipynb).

The notebook drives a sizing model of a multi-rotor drone: a function
sizing_code(x, mode) loaded from a serialized model file, wrapped by a
scipy optimization driver.  The driver script (specification constants,
bounds, initial coefficient vector, the SLSQP / differential-evolution
branch and the report calls) is embedded below directly from the source.
The body of sizing_code itself is not part of the repository (it is
deserialized from models/sizing_code); where a claim depends on it, the
corresponding definitions are modelled from the specification and are
marked as such in their doc comments.

All real arithmetic is modelled over the rationals, which are exact:
there is no NaN or infinity in this embedding, so finiteness claims
become positivity / totality statements.
-/

namespace Sizing

/-- The vector of 8 dimensionless optimization variables, with the field
names of the notebook (cell 24). -/
structure Coeffs where
  beta_pro : ℚ
  k_os : ℚ
  k_ND : ℚ
  k_mot : ℚ
  k_speed_mot : ℚ
  k_mb : ℚ
  k_vb : ℚ
  k_D : ℚ
  deriving Repr, DecidableEq

/-- The initial coefficient vector of the notebook (cell 24):
beta_pro = .33, k_os = 3.2, k_ND = 1.2, k_mot = 1., k_speed_mot = 1.2,
k_mb = 1., k_vb = 1., k_D = .01. -/
def parameters : Coeffs :=
  { beta_pro := 33/100
    k_os := 16/5
    k_ND := 6/5
    k_mot := 1
    k_speed_mot := 6/5
    k_mb := 1
    k_vb := 1
    k_D := 1/100 }

/-- The optimization bounds of the notebook (cell 28), in the order
beta, k_os, k_ND, k_mot, k_speed_mot, k_mb, k_vb, k_D:
[(0.3,0.6), (1,400), (1,100), (1,100), (1,400), (0.1,100), (1,5), (0.1,0.99)]. -/
def bounds : List (ℚ × ℚ) :=
  [(3/10, 3/5), (1, 400), (1, 100), (1, 100), (1, 400), (1/10, 100), (1, 5), (1/10, 99/100)]

/-- Each coefficient lies within its declared bound. -/
def InBounds (c : Coeffs) : Prop :=
  3/10 ≤ c.beta_pro ∧ c.beta_pro ≤ 3/5 ∧
  1 ≤ c.k_os ∧ c.k_os ≤ 400 ∧
  1 ≤ c.k_ND ∧ c.k_ND ≤ 100 ∧
  1 ≤ c.k_mot ∧ c.k_mot ≤ 100 ∧
  1 ≤ c.k_speed_mot ∧ c.k_speed_mot ≤ 400 ∧
  1/10 ≤ c.k_mb ∧ c.k_mb ≤ 100 ∧
  1 ≤ c.k_vb ∧ c.k_vb ≤ 5 ∧
  1/10 ≤ c.k_D ∧ c.k_D ≤ 99/100

instance (c : Coeffs) : Decidable (InBounds c) := by
  unfold InBounds; infer_instance

/-- Clamp a scalar into the interval [l, u]. -/
def clampQ (l u x : ℚ) : ℚ := max l (min u x)

/-- Clamp every coefficient into its declared bound (the clamping policy
of specification section 7 for BoundViolation). -/
def clampCoeffs (c : Coeffs) : Coeffs :=
  { beta_pro := clampQ (3/10) (3/5) c.beta_pro
    k_os := clampQ 1 400 c.k_os
    k_ND := clampQ 1 100 c.k_ND
    k_mot := clampQ 1 100 c.k_mot
    k_speed_mot := clampQ 1 400 c.k_speed_mot
    k_mb := clampQ (1/10) 100 c.k_mb
    k_vb := clampQ 1 5 c.k_vb
    k_D := clampQ (1/10) (99/100) c.k_D }

/-- Mission specification of the notebook (cells 8 and 10), with the
source variable names: load mass M_pay, hover autonomy t_hov_spec,
take-off acceleration a_to, maximal mass MTOW, and the architecture
N_arm arms with N_pro_arm propellers per arm. -/
structure MissionSpec where
  M_pay : ℚ
  t_hov_spec : ℚ
  a_to : ℚ
  MTOW : ℚ
  N_arm : ℕ
  N_pro_arm : ℕ
  deriving Repr, DecidableEq

/-- Propeller count N_pro = N_pro_arm * N_arm (cell 10). -/
def MissionSpec.N_pro (ms : MissionSpec) : ℕ := ms.N_pro_arm * ms.N_arm

/-- The concrete mission of the notebook: payload 100 kg, 25 min hover,
take-off acceleration 0.25 * 9.81 = 981/400 m/s^2, MTOW 360 kg,
4 arms with 2 propellers each. -/
def missionSpec : MissionSpec :=
  { M_pay := 100, t_hov_spec := 25, a_to := 981/400, MTOW := 360, N_arm := 4, N_pro_arm := 2 }

/-- Composite max stress sigma_max = 280e6/4 Pa (cell 17). -/
def sigma_max : ℚ := 70000000

/-- Propeller tip speed limit ND_max = 105000/60*.0254 Hz.m (cell 19). -/
def ND_max : ℚ := 889/20

/-- Standard gravity 9.81 m/s^2 (the notebook uses 9.81 in a_to, cell 8). -/
def g : ℚ := 981/100

/-- Modelled from the spec: the body of sizing_code is deserialized from
models/sizing_code and is absent from the repository, so the
per-subsystem similarity laws of specification section 4.1
(ScalingLawLibrary) are abstracted as functions from a required
performance value to a predicted mass, torque, voltage, speed, stress,
energy or power.  The mass laws feed the fixed-point mass loop; the
remaining laws feed the constraint margins of section 4.3. -/
structure ScalingLawLibrary where
  propMass : ℚ → ℚ
  motMass : ℚ → ℚ
  escMass : ℚ → ℚ
  frameMass : ℚ → ℚ
  motTorque : ℚ → ℚ
  motMaxTorque : ℚ → ℚ
  busVoltage : ℚ → ℚ
  reqVoltage : ℚ → ℚ
  nd : ℚ → ℚ
  stress : ℚ → ℚ
  batEnergy : ℚ → ℚ
  hoverPower : ℚ → ℚ

/-- Specification section 4.1 contract for the mass laws: defined and
positive for all positive inputs. -/
def ScalingLawLibrary.PositiveMassLaws (lib : ScalingLawLibrary) : Prop :=
  ∀ x : ℚ, 0 < x →
    0 < lib.propMass x ∧ 0 < lib.motMass x ∧ 0 < lib.escMass x ∧ 0 < lib.frameMass x

/-- Modelled from the spec, section 4.2: one pass of the algebraic-loop
body.  From a current total-mass estimate M, the required hover thrust
per propeller is M*g/N_pro; propeller, motor and ESC are sized from that
thrust (the motor from the k_mot-oversized requirement), the battery
mass is the payload ratio k_mb times the payload mass (section 3), the
frame is sized from the per-arm load, and the masses are summed into a
new total. -/
def massUpdate (lib : ScalingLawLibrary) (ms : MissionSpec) (c : Coeffs) (M : ℚ) : ℚ :=
  ms.M_pay + c.k_mb * ms.M_pay
    + (ms.N_pro : ℚ) * (lib.propMass (M * g / (ms.N_pro : ℚ))
        + lib.motMass (c.k_mot * (M * g / (ms.N_pro : ℚ)))
        + lib.escMass (M * g / (ms.N_pro : ℚ)))
    + lib.frameMass (M * g / (ms.N_pro : ℚ))

/-- Convergence tolerance of the fixed-point loop, 1e-6 (spec section 4.2). -/
def convTol : ℚ := 1/1000000

/-- Modelled from the spec, section 4.2: fixed-point iteration on the
total mass with an explicit fuel argument realizing the hard iteration
cap.  When the fuel runs out the last iterate is returned unchanged
(graceful fallback on LoopDivergence, spec section 7); otherwise one
massUpdate step is taken and the loop stops as soon as the change is
within the relative tolerance. -/
def loopIter (lib : ScalingLawLibrary) (ms : MissionSpec) (c : Coeffs) :
    ℕ → ℚ → ℚ
  | 0, M => M
  | n + 1, M =>
    if |massUpdate lib ms c M - M| ≤ convTol * massUpdate lib ms c M
      then massUpdate lib ms c M
      else loopIter lib ms c n (massUpdate lib ms c M)

/-- Iteration cap of the fixed-point loop, 100 (spec section 4.2). -/
def maxLoopIter : ℕ := 100

/-- Modelled from the spec, section 4.2: resolve the thrust / total-mass
algebraic loop starting from the initial guess k_os times the payload
mass, with the iteration cap maxLoopIter. -/
def loopResolve (lib : ScalingLawLibrary) (ms : MissionSpec) (c : Coeffs) : ℚ :=
  loopIter lib ms c maxLoopIter (c.k_os * ms.M_pay)

/-- Modelled from the spec, sections 4.5 and 7: mode Obj of the
evaluator.  Coefficients are clamped into their declared bounds before
evaluation (BoundViolation policy), then the loop is resolved and the
total mass returned. -/
def evalObj (lib : ScalingLawLibrary) (ms : MissionSpec) (c : Coeffs) : ℚ :=
  loopResolve lib ms (clampCoeffs c)

/-- Modelled from the spec, section 4.3: the six signed feasibility
margins (non-negative means satisfied) computed from the resolved total
mass M: motor torque, motor speed/voltage, propeller tip speed,
structural stress, battery energy, and mass budget. -/
def margins (lib : ScalingLawLibrary) (ms : MissionSpec) (c : Coeffs) (M : ℚ) : List ℚ :=
  [ lib.motMaxTorque (c.k_mot * lib.motTorque (M * g / (ms.N_pro : ℚ)))
      - c.k_mot * lib.motTorque (M * g / (ms.N_pro : ℚ))
  , c.k_vb * lib.busVoltage (c.k_mb * ms.M_pay)
      - lib.reqVoltage (c.k_speed_mot * (M * g / (ms.N_pro : ℚ)))
  , ND_max / c.k_ND - lib.nd (M * g / (ms.N_pro : ℚ))
  , sigma_max - lib.stress (c.k_D * (M * g / (ms.N_pro : ℚ)))
  , lib.batEnergy (c.k_mb * ms.M_pay)
      - ms.t_hov_spec * lib.hoverPower (M * g / (ms.N_pro : ℚ))
  , ms.MTOW - M ]

/-- Modelled from the spec, sections 4.3 and 4.5: mode Const of the
evaluator.  Clamp, resolve the loop, and return all margins (no early
exit). -/
def evalConst (lib : ScalingLawLibrary) (ms : MissionSpec) (c : Coeffs) : List ℚ :=
  margins lib ms (clampCoeffs c) (loopResolve lib ms (clampCoeffs c))

/-- Sum of squared negative parts of a margin vector. -/
def sumSqNeg (v : List ℚ) : ℚ := (v.map (fun m => (min m 0) ^ 2)).sum

/-- Modelled from the spec, section 4.4: the penalty multiplier is only
required to be large and finite; its concrete value is not recorded in
the repository. -/
def penaltyWeight : ℚ := 1000000

/-- Modelled from the spec, section 4.4: mode ObjP of the evaluator,
the total mass plus penaltyWeight times the sum of squared negative
constraint margins. -/
def evalObjP (lib : ScalingLawLibrary) (ms : MissionSpec) (c : Coeffs) : ℚ :=
  evalObj lib ms c + penaltyWeight * sumSqNeg (evalConst lib ms c)

/-- The data of the human-readable report: the resolved total mass and
the constraint margins (the Reporter consuming it is external). -/
structure SizingReport where
  totalMass : ℚ
  constraints : List ℚ
  deriving Repr, DecidableEq

/-- Modelled from the spec, section 4.5: the print mode performs its own
full, fresh evaluation of the coefficients (no cached DesignPoint). -/
def evalPrt (lib : ScalingLawLibrary) (ms : MissionSpec) (c : Coeffs) : SizingReport :=
  { totalMass := evalObj lib ms c, constraints := evalConst lib ms c }

/-- The interface of the deserialized sizing_code callable as the driver
uses it: one projection per mode tag.  Obj and ObjP return a scalar,
Const a vector of margins, Prt the report data. -/
structure SizingCode where
  obj : Coeffs → ℚ
  objP : Coeffs → ℚ
  const : Coeffs → List ℚ
  prt : Coeffs → SizingReport

/-- The spec-modelled sizing evaluator packaged under the driver
interface: every projection is an independent full evaluation of its
argument. -/
def mkSizingCode (lib : ScalingLawLibrary) (ms : MissionSpec) : SizingCode :=
  { obj := evalObj lib ms
    objP := evalObjP lib ms
    const := evalConst lib ms
    prt := evalPrt lib ms }

/-- Untyped result of one sizing_code call. -/
inductive EvalOutput where
  | scalar (v : ℚ)
  | vector (v : List ℚ)
  | report (r : SizingReport)
  deriving DecidableEq

/-- The sizing_code entry point as the driver calls it: dispatch on the
mode string.  The driver passes exactly the four tags Obj, ObjP, Const
and Prt (cells 26 and 28); the final branch is the print mode. -/
def sizing_code (s : SizingCode) (x : Coeffs) (mode : String) : EvalOutput :=
  if mode = "Obj" then .scalar (s.obj x)
  else if mode = "ObjP" then .scalar (s.objP x)
  else if mode = "Const" then .vector (s.const x)
  else .report (s.prt x)

/-- Driver lambda (cell 28): contrainte = lambda x: sizing_code(x, 'Const'). -/
def contrainte (s : SizingCode) (x : Coeffs) : EvalOutput := sizing_code s x "Const"

/-- Driver lambda (cell 28): objectif = lambda x: sizing_code(x, 'Obj'). -/
def objectif (s : SizingCode) (x : Coeffs) : EvalOutput := sizing_code s x "Obj"

/-- Driver lambda (cell 28): objectifP = lambda x: sizing_code(x, 'ObjP'). -/
def objectifP (s : SizingCode) (x : Coeffs) : EvalOutput := sizing_code s x "ObjP"

/-- The mode string selecting the human-readable report in the driver:
'Prt' (cells 26 and 28). -/
def reportModeTag : String := "Prt"

/-- The distinct mode strings the driver script passes to sizing_code
anywhere (cells 26 and 28): the three lambda modes and the print mode. -/
def scriptModeTags : List String := ["Obj", "ObjP", "Const", reportModeTag]

/-- The report call made before optimization (cell 26):
sizing_code(parameters, 'Prt'). -/
def preOptimizationCall : Coeffs × String := (parameters, reportModeTag)

/-- The strategy selector of the notebook, as shipped (cell 28):
SLSQP = False. -/
def SLSQP : Bool := false

/-- The argument record of the scipy.optimize.fmin_slsqp call in the
SLSQP branch (cell 28).  fprime is the analytic Jacobian argument;
scipy defaults it to None when not supplied, in which case gradients
are estimated by finite differences, and the solver treats each entry
of f_ieqcons(x) as an inequality constraint satisfied when it is
non-negative. -/
structure FminSlsqpArgs where
  func : Coeffs → EvalOutput
  x0 : Coeffs
  bounds : List (ℚ × ℚ)
  f_ieqcons : Coeffs → EvalOutput
  iter : ℕ
  acc : ℚ
  fprime : Option (Coeffs → List ℚ)

/-- The vector of rationals carried by an output (a scalar is the
one-element vector scipy would broadcast; a report carries none). -/
def vectorParts : EvalOutput → List ℚ
  | .scalar v => [v]
  | .vector v => v
  | .report _ => []

/-- The feasibility predicate fmin_slsqp applies to a candidate x:
every entry of f_ieqcons(x) is non-negative. -/
def FminSlsqpArgs.Feasible (a : FminSlsqpArgs) (x : Coeffs) : Prop :=
  ∀ m ∈ vectorParts (a.f_ieqcons x), 0 ≤ m

/-- The argument record of the scipy.optimize.differential_evolution
call in the stochastic branch (cell 28).  The solver samples within
bounds only; the x0, constraints and jac fields record that no initial
guess, no separate constraint function and no derivative information
are supplied (scipy's differential_evolution takes none of them in
this call). -/
structure DiffEvolArgs where
  func : Coeffs → EvalOutput
  bounds : List (ℚ × ℚ)
  tol : ℚ
  x0 : Option Coeffs
  constraints : Option (Coeffs → EvalOutput)
  jac : Option (Coeffs → List ℚ)

/-- The one solver invocation the driver makes, per branch. -/
inductive OptInvocation where
  | slsqp (a : FminSlsqpArgs)
  | diffevol (a : DiffEvolArgs)

/-- The bounds list handed to whichever solver was invoked. -/
def OptInvocation.boundsOf : OptInvocation → List (ℚ × ℚ)
  | .slsqp a => a.bounds
  | .diffevol a => a.bounds

/-- The solver invocation of the driver (cell 28) as a function of the
strategy flag: fmin_slsqp(func=objectif, x0=parameters, bounds=bounds,
f_ieqcons=contrainte, iter=1500, acc=1e-12) when the flag is True,
differential_evolution(func=objectifP, bounds=bounds, tol=1e-12)
otherwise. -/
def searchInvocation (s : SizingCode) (slsqpFlag : Bool) : OptInvocation :=
  if slsqpFlag = true then
    .slsqp
      { func := objectif s
        x0 := parameters
        bounds := bounds
        f_ieqcons := contrainte s
        iter := 1500
        acc := 1/1000000000000
        fprime := none }
  else
    .diffevol
      { func := objectifP s
        bounds := bounds
        tol := 1/1000000000000
        x0 := none
        constraints := none
        jac := none }

/-- The argument record built in the SLSQP branch, named for reference
in theorems. -/
def slsqpInvocationArgs (s : SizingCode) : FminSlsqpArgs :=
  { func := objectif s
    x0 := parameters
    bounds := bounds
    f_ieqcons := contrainte s
    iter := 1500
    acc := 1/1000000000000
    fprime := none }

/-- The argument record built in the differential-evolution branch,
named for reference in theorems. -/
def deInvocationArgs (s : SizingCode) : DiffEvolArgs :=
  { func := objectifP s
    bounds := bounds
    tol := 1/1000000000000
    x0 := none
    constraints := none
    jac := none }

/-- The result object of differential_evolution; the driver reads its
x attribute (cell 28: result.x). -/
structure DEResult where
  x : Coeffs

/-- The final report phase (cell 28): the best vector is passed to
sizing_code first in mode 'Obj', then in mode 'Prt'. -/
def finalReportCalls (best : Coeffs) : List (Coeffs × String) :=
  [(best, "Obj"), (best, reportModeTag)]

/-- The tail of the driver script (cell 28) as a function of the
strategy flag and of the value each solver would return: the SLSQP
branch reports result itself, the differential-evolution branch
reports result.x; either way the driver returns that best vector
together with the two final report calls made on it. -/
def driverRun (slsqpFlag : Bool) (slsqpResult : Coeffs) (deResult : DEResult) :
    Coeffs × List (Coeffs × String) :=
  if slsqpFlag = true then (slsqpResult, finalReportCalls slsqpResult)
  else (deResult.x, finalReportCalls deResult.x)

/-- A concrete scaling-law library with constant laws, used to
instantiate the abstract library in witnesses: every mass law returns
1 kg, the selected motor has max torque 10 against a hover torque of 1,
the bus provides 50 V against a 10 V demand, the tip-speed product is
20 Hz.m, the beam stress 1e6 Pa, the battery stores 1e8 J against a
1 kW hover draw. -/
def flatLaws : ScalingLawLibrary :=
  { propMass := fun _ => 1
    motMass := fun _ => 1
    escMass := fun _ => 1
    frameMass := fun _ => 1
    motTorque := fun _ => 1
    motMaxTorque := fun _ => 10
    busVoltage := fun _ => 50
    reqVoltage := fun _ => 10
    nd := fun _ => 20
    stress := fun _ => 1000000
    batEnergy := fun _ => 100000000
    hoverPower := fun _ => 1000 }

/-- flatLaws with the beam stress law raised above sigma_max, producing
an infeasible design point while leaving the mass laws unchanged. -/
def heavyStressLaws : ScalingLawLibrary :=
  { flatLaws with stress := fun _ => 100000000 }

/-- The initial coefficient vector with its k_D entry moved inside the
declared bound (parameters itself has k_D = 0.01 < 0.1). -/
def inBoundsStart : Coeffs := { parameters with k_D := 1/2 }

/-! Helper lemmas. -/

theorem clampQ_le {l u : ℚ} (h : l ≤ u) (x : ℚ) : clampQ l u x ≤ u :=
  max_le h (min_le_left u x)

theorem le_clampQ (l u x : ℚ) : l ≤ clampQ l u x := le_max_left l _

theorem clampQ_idem {l u : ℚ} (h : l ≤ u) (x : ℚ) :
    clampQ l u (clampQ l u x) = clampQ l u x := by
  have h1 : clampQ l u x ≤ u := clampQ_le h x
  have h2 : l ≤ clampQ l u x := le_clampQ l u x
  calc clampQ l u (clampQ l u x) = max l (min u (clampQ l u x)) := rfl
    _ = max l (clampQ l u x) := by rw [min_eq_right h1]
    _ = clampQ l u x := max_eq_right h2

theorem clampCoeffs_idem (c : Coeffs) :
    clampCoeffs (clampCoeffs c) = clampCoeffs c := by
  unfold clampCoeffs
  simp only [clampQ_idem (by norm_num : (3:ℚ)/10 ≤ 3/5),
    clampQ_idem (by norm_num : (1:ℚ) ≤ 400),
    clampQ_idem (by norm_num : (1:ℚ) ≤ 100),
    clampQ_idem (by norm_num : (1:ℚ)/10 ≤ 100),
    clampQ_idem (by norm_num : (1:ℚ) ≤ 5),
    clampQ_idem (by norm_num : (1:ℚ)/10 ≤ 99/100)]

theorem clampCoeffs_inBounds (c : Coeffs) : InBounds (clampCoeffs c) :=
  ⟨le_clampQ _ _ _, clampQ_le (by norm_num) _,
   le_clampQ _ _ _, clampQ_le (by norm_num) _,
   le_clampQ _ _ _, clampQ_le (by norm_num) _,
   le_clampQ _ _ _, clampQ_le (by norm_num) _,
   le_clampQ _ _ _, clampQ_le (by norm_num) _,
   le_clampQ _ _ _, clampQ_le (by norm_num) _,
   le_clampQ _ _ _, clampQ_le (by norm_num) _,
   le_clampQ _ _ _, clampQ_le (by norm_num) _⟩

theorem massUpdate_pos (lib : ScalingLawLibrary) (ms : MissionSpec) (c : Coeffs)
    (hlib : lib.PositiveMassLaws) (hpay : 0 < ms.M_pay) (hnp : 0 < ms.N_pro)
    (hmb : 0 < c.k_mb) (hmot : 0 < c.k_mot) {M : ℚ} (hM : 0 < M) :
    0 < massUpdate lib ms c M := by
  have hg : (0:ℚ) < g := by norm_num [g]
  have hnp2 : (0:ℚ) < (ms.N_pro : ℚ) := by exact_mod_cast hnp
  have hF : 0 < M * g / (ms.N_pro : ℚ) := div_pos (mul_pos hM hg) hnp2
  have h1 := hlib _ hF
  have h2 := hlib _ (mul_pos hmot hF)
  have hsum : 0 < lib.propMass (M * g / (ms.N_pro : ℚ))
      + lib.motMass (c.k_mot * (M * g / (ms.N_pro : ℚ)))
      + lib.escMass (M * g / (ms.N_pro : ℚ)) :=
    add_pos (add_pos h1.1 h2.2.1) h1.2.2.1
  exact add_pos (add_pos (add_pos hpay (mul_pos hmb hpay)) (mul_pos hnp2 hsum)) h1.2.2.2

theorem loopIter_pos (lib : ScalingLawLibrary) (ms : MissionSpec) (c : Coeffs)
    (hlib : lib.PositiveMassLaws) (hpay : 0 < ms.M_pay) (hnp : 0 < ms.N_pro)
    (hmb : 0 < c.k_mb) (hmot : 0 < c.k_mot) (n : ℕ) :
    ∀ {M : ℚ}, 0 < M → 0 < loopIter lib ms c n M := by
  induction n with
  | zero => intro M hM; exact hM
  | succ n ih =>
    intro M hM
    have h2 := massUpdate_pos lib ms c hlib hpay hnp hmb hmot hM
    simp only [loopIter]
    split
    · exact h2
    · exact ih h2

theorem loopResolve_pos (lib : ScalingLawLibrary) (ms : MissionSpec) (c : Coeffs)
    (hlib : lib.PositiveMassLaws) (hpay : 0 < ms.M_pay) (hnp : 0 < ms.N_pro)
    (hc : InBounds c) : 0 < loopResolve lib ms c := by
  obtain ⟨-, -, hos, -, -, -, hmot, -, -, -, hmb, -, -, -, -, -⟩ := hc
  have hmb0 : 0 < c.k_mb := lt_of_lt_of_le (by norm_num) hmb
  have hmot0 : 0 < c.k_mot := lt_of_lt_of_le (by norm_num) hmot
  have hos0 : 0 < c.k_os := lt_of_lt_of_le (by norm_num) hos
  exact loopIter_pos lib ms c hlib hpay hnp hmb0 hmot0 maxLoopIter (mul_pos hos0 hpay)

theorem sumSqNeg_nonneg (v : List ℚ) : 0 ≤ sumSqNeg v := by
  induction v with
  | nil => simp [sumSqNeg]
  | cons a t ih =>
    have h : (0:ℚ) ≤ (min a 0) ^ 2 := sq_nonneg _
    simp only [sumSqNeg, List.map_cons, List.sum_cons] at ih ⊢
    linarith

theorem sumSqNeg_eq_zero {v : List ℚ} (h : ∀ m ∈ v, 0 ≤ m) : sumSqNeg v = 0 := by
  induction v with
  | nil => simp [sumSqNeg]
  | cons a t ih =>
    have ha : 0 ≤ a := h a (List.mem_cons_self a t)
    have ht : ∀ m ∈ t, 0 ≤ m := fun m hm => h m (List.mem_cons_of_mem a hm)
    have ha0 : min a 0 = 0 := min_eq_right ha
    simp only [sumSqNeg, List.map_cons, List.sum_cons] at ih ⊢
    rw [ha0, ih ht]
    norm_num

theorem sumSqNeg_pos {v : List ℚ} (h : ∃ m ∈ v, m < 0) : 0 < sumSqNeg v := by
  induction v with
  | nil => simp at h
  | cons a t ih =>
    obtain ⟨m, hm, hneg⟩ := h
    rcases List.mem_cons.mp hm with rfl | hmt
    · have hmin : min m 0 = m := min_eq_left (le_of_lt hneg)
      have h1 : 0 < (min m 0) ^ 2 := by
        rw [hmin, sq]
        exact mul_pos_of_neg_of_neg hneg hneg
      have h2 := sumSqNeg_nonneg t
      simp only [sumSqNeg, List.map_cons, List.sum_cons] at h2 ⊢
      linarith
    · have h2 := ih ⟨m, hmt, hneg⟩
      have h3 : (0:ℚ) ≤ (min a 0) ^ 2 := sq_nonneg _
      simp only [sumSqNeg, List.map_cons, List.sum_cons] at h2 ⊢
      linarith

/-! Claim theorems. -/

/-- C1: for every coefficient vector whose 8 entries lie within the
declared bounds, and for every mission with positive payload and at
least one propeller and every scaling-law library meeting the
positive-mass-laws contract, evaluating in mode Obj yields a positive
(hence finite, non-NaN: the model is exact rational arithmetic) total
mass; the internal fixed-point loop is fuel-capped by construction and
returns the last iterate unchanged when the cap is hit (second
conjunct). -/
theorem evalObj_pos_of_inBounds (lib : ScalingLawLibrary) (ms : MissionSpec) (c : Coeffs)
    (hlib : lib.PositiveMassLaws) (hpay : 0 < ms.M_pay) (hnp : 0 < ms.N_pro)
    (hc : InBounds c) :
    0 < evalObj lib ms c ∧
    ∀ M : ℚ, loopIter lib ms (clampCoeffs c) 0 M = M := by
  constructor
  · exact loopResolve_pos lib ms (clampCoeffs c) hlib hpay hnp (clampCoeffs_inBounds c)
  · intro M; rfl

/-- Witness for C1 at the concrete mission of the notebook, the flat
concrete library and an in-bounds coefficient vector. -/
theorem evalObj_pos_of_inBounds_witness :
    flatLaws.PositiveMassLaws ∧ 0 < missionSpec.M_pay ∧ 0 < missionSpec.N_pro ∧
    InBounds inBoundsStart ∧
    (0 < evalObj flatLaws missionSpec inBoundsStart ∧
      ∀ M : ℚ, loopIter flatLaws missionSpec (clampCoeffs inBoundsStart) 0 M = M) := by
  have h1 : flatLaws.PositiveMassLaws := by
    intro x hx
    refine ⟨?_, ?_, ?_, ?_⟩ <;> norm_num [flatLaws]
  have h2 : 0 < missionSpec.M_pay := by norm_num [missionSpec]
  have h3 : 0 < missionSpec.N_pro := by norm_num [missionSpec, MissionSpec.N_pro]
  have h4 : InBounds inBoundsStart := by norm_num [InBounds, inBoundsStart, parameters]
  exact ⟨h1, h2, h3, h4, evalObj_pos_of_inBounds flatLaws missionSpec inBoundsStart h1 h2 h3 h4⟩

/-- C2 counterexample: the driver selects the human-readable report
with the mode string Prt, not Report; Report is not among the mode
strings the script passes to sizing_code. -/
theorem report_tag_not_Report :
    reportModeTag ≠ "Report" ∧ "Report" ∉ scriptModeTags ∧ preOptimizationCall.2 = "Prt" := by
  refine ⟨by decide, by decide, rfl⟩

/-- C2 (amended): the evaluator mode argument ranges over exactly the
four tags Obj, ObjP, Const and Prt; the human-readable report is
selected by the tag Prt, used both before optimization and in the
final report phase, and the three optimizer lambdas pass Obj, ObjP
and Const respectively. -/
theorem evaluator_mode_tags (s : SizingCode) (x : Coeffs) :
    scriptModeTags = ["Obj", "ObjP", "Const", "Prt"] ∧
    reportModeTag = "Prt" ∧
    objectif s x = sizing_code s x "Obj" ∧
    objectifP s x = sizing_code s x "ObjP" ∧
    contrainte s x = sizing_code s x "Const" ∧
    preOptimizationCall = (parameters, "Prt") ∧
    finalReportCalls x = [(x, "Obj"), (x, "Prt")] :=
  ⟨rfl, rfl, rfl, rfl, rfl, rfl, rfl⟩

/-- C3 counterexample: the initial coefficient vector of the notebook
violates the declared bounds: its k_D entry is 0.01, below the lower
bound 0.1. -/
theorem parameters_out_of_bounds :
    parameters.k_D < 1/10 ∧ ¬ InBounds parameters := by
  constructor
  · norm_num [parameters]
  · intro h
    obtain ⟨-, -, -, -, -, -, -, -, -, -, -, -, -, -, hkD, -⟩ := h
    norm_num [parameters] at hkD

/-- C3 (amended): the initial coefficient vector satisfies every
declared bound except k_D, which is 0.01, below its lower bound 0.1;
both solver branches receive exactly the declared bounds list, so the
vectors they probe are constrained to it. -/
theorem coefficient_bounds_amended (s : SizingCode) :
    (3/10 ≤ parameters.beta_pro ∧ parameters.beta_pro ≤ 3/5) ∧
    (1 ≤ parameters.k_os ∧ parameters.k_os ≤ 400) ∧
    (1 ≤ parameters.k_ND ∧ parameters.k_ND ≤ 100) ∧
    (1 ≤ parameters.k_mot ∧ parameters.k_mot ≤ 100) ∧
    (1 ≤ parameters.k_speed_mot ∧ parameters.k_speed_mot ≤ 400) ∧
    (1/10 ≤ parameters.k_mb ∧ parameters.k_mb ≤ 100) ∧
    (1 ≤ parameters.k_vb ∧ parameters.k_vb ≤ 5) ∧
    parameters.k_D < 1/10 ∧
    (searchInvocation s true).boundsOf = bounds ∧
    (searchInvocation s false).boundsOf = bounds := by
  refine ⟨?_, ?_, ?_, ?_, ?_, ?_, ?_, ?_, rfl, rfl⟩ <;> norm_num [parameters]

/-- C4: the evaluator clamps out-of-bounds coefficients into their
declared bounds before evaluation instead of rejecting them: the
clamped image always satisfies the bounds, and every mode of the
evaluator returns on any vector exactly what it returns on the
vector's clamped image (the evaluator is a total function, so no
vector is rejected or raises). -/
theorem sizing_code_clamps (lib : ScalingLawLibrary) (ms : MissionSpec)
    (x : Coeffs) (mode : String) :
    InBounds (clampCoeffs x) ∧
    sizing_code (mkSizingCode lib ms) x mode
      = sizing_code (mkSizingCode lib ms) (clampCoeffs x) mode := by
  refine ⟨clampCoeffs_inBounds x, ?_⟩
  have ho : evalObj lib ms (clampCoeffs x) = evalObj lib ms x := by
    unfold evalObj
    rw [clampCoeffs_idem]
  have hcst : evalConst lib ms (clampCoeffs x) = evalConst lib ms x := by
    unfold evalConst
    rw [clampCoeffs_idem]
  have hP : evalObjP lib ms (clampCoeffs x) = evalObjP lib ms x := by
    unfold evalObjP
    rw [ho, hcst]
  have hprt : evalPrt lib ms (clampCoeffs x) = evalPrt lib ms x := by
    unfold evalPrt
    rw [ho, hcst]
  unfold sizing_code mkSizingCode
  split_ifs <;> simp only [ho, hcst, hP, hprt]

/-- C5: when the gradient strategy is selected, the driver invokes the
sequential bounded constrained solver fmin_slsqp on the pure-mass
objective (mode Obj), started from the initial vector, with the
declared bounds, the mode-Const vector as inequality constraints whose
entries the solver treats as satisfied when non-negative, and no
analytic Jacobian (fprime is absent, so gradients are estimated by
finite differences). -/
theorem slsqp_branch (s : SizingCode) (x : Coeffs) :
    searchInvocation s true = .slsqp (slsqpInvocationArgs s) ∧
    (slsqpInvocationArgs s).func = (fun y => sizing_code s y "Obj") ∧
    (slsqpInvocationArgs s).x0 = parameters ∧
    (slsqpInvocationArgs s).bounds = bounds ∧
    (slsqpInvocationArgs s).f_ieqcons = (fun y => sizing_code s y "Const") ∧
    (slsqpInvocationArgs s).fprime = none ∧
    ((slsqpInvocationArgs s).Feasible x ↔
      ∀ m ∈ vectorParts (sizing_code s x "Const"), 0 ≤ m) :=
  ⟨rfl, rfl, rfl, rfl, rfl, rfl, Iff.rfl⟩

/-- C6: when the stochastic strategy is selected, the driver invokes
differential_evolution over the declared bounds on the penalized
objective only (mode ObjP), supplying no derivative information, no
separate constraint function and no initial coefficient guess. -/
theorem diffevol_branch (s : SizingCode) :
    searchInvocation s false = .diffevol (deInvocationArgs s) ∧
    (deInvocationArgs s).func = (fun y => sizing_code s y "ObjP") ∧
    (deInvocationArgs s).bounds = bounds ∧
    (deInvocationArgs s).x0 = none ∧
    (deInvocationArgs s).constraints = none ∧
    (deInvocationArgs s).jac = none :=
  ⟨rfl, rfl, rfl, rfl, rfl, rfl⟩

/-- C7: for a coefficient vector whose resolved design point satisfies
every constraint margin, the penalized objective ObjP equals the pure
objective Obj; when at least one margin is negative, ObjP strictly
exceeds Obj. -/
theorem objP_penalty (lib : ScalingLawLibrary) (ms : MissionSpec) (c : Coeffs) :
    ((∀ m ∈ evalConst lib ms c, 0 ≤ m) → evalObjP lib ms c = evalObj lib ms c) ∧
    ((∃ m ∈ evalConst lib ms c, m < 0) → evalObj lib ms c < evalObjP lib ms c) := by
  constructor
  · intro h
    unfold evalObjP
    rw [sumSqNeg_eq_zero h]
    ring
  · intro h
    have h1 := sumSqNeg_pos h
    have hw : (0:ℚ) < penaltyWeight := by norm_num [penaltyWeight]
    have h2 := mul_pos hw h1
    unfold evalObjP
    linarith

/-- Witness for C7: with the flat concrete library the concrete
design point is feasible and ObjP coincides with Obj; raising the
stress law above sigma_max makes it infeasible and ObjP strictly
exceeds Obj. -/
theorem objP_penalty_witness :
    evalObjP flatLaws missionSpec inBoundsStart
      = evalObj flatLaws missionSpec inBoundsStart ∧
    evalObj heavyStressLaws missionSpec inBoundsStart
      < evalObjP heavyStressLaws missionSpec inBoundsStart := by
  constructor
  · apply (objP_penalty flatLaws missionSpec inBoundsStart).1
    have he : evalConst flatLaws missionSpec inBoundsStart
        = [9, 40, 409/24, 69000000, 99975000, 135] := by
      norm_num [evalConst, margins, loopResolve, maxLoopIter, loopIter, massUpdate,
        clampCoeffs, clampQ, convTol, missionSpec, MissionSpec.N_pro, inBoundsStart,
        parameters, flatLaws, g, ND_max, sigma_max]
    rw [he]
    intro m hm
    simp only [List.mem_cons, List.not_mem_nil, or_false] at hm
    rcases hm with rfl | rfl | rfl | rfl | rfl | rfl <;> norm_num
  · apply (objP_penalty heavyStressLaws missionSpec inBoundsStart).2
    have he : evalConst heavyStressLaws missionSpec inBoundsStart
        = [9, 40, 409/24, -30000000, 99975000, 135] := by
      norm_num [evalConst, margins, loopResolve, maxLoopIter, loopIter, massUpdate,
        clampCoeffs, clampQ, convTol, missionSpec, MissionSpec.N_pro, inBoundsStart,
        parameters, heavyStressLaws, flatLaws, g, ND_max, sigma_max]
    refine ⟨-30000000, ?_, by norm_num⟩
    rw [he]
    simp

/-- C9: as shipped the strategy selector is False, so the driver runs
the differential-evolution branch on the penalized objective, the
SLSQP branch is never taken, and the vector returned and fed to the
final report calls is the differential-evolution result's x
attribute. -/
theorem shipped_strategy_is_stochastic (s : SizingCode) (sr : Coeffs) (de : DEResult) :
    SLSQP = false ∧
    searchInvocation s SLSQP = .diffevol (deInvocationArgs s) ∧
    (driverRun SLSQP sr de).1 = de.x ∧
    (driverRun SLSQP sr de).2 = finalReportCalls de.x :=
  ⟨rfl, rfl, rfl, rfl⟩

/-- C10: after optimization the driver re-invokes the evaluator on the
best vector, first in mode Obj and then in mode Prt, for either
branch; in the modelled evaluator the Prt output is itself a fresh,
fully self-consistent evaluation of the same coefficients: its total
mass and margins equal the independent Obj and Const evaluations. -/
theorem final_report_reevaluates (lib : ScalingLawLibrary) (ms : MissionSpec)
    (flag : Bool) (sr : Coeffs) (de : DEResult) (x : Coeffs) :
    (driverRun flag sr de).2 = finalReportCalls (driverRun flag sr de).1 ∧
    finalReportCalls x = [(x, "Obj"), (x, reportModeTag)] ∧
    sizing_code (mkSizingCode lib ms) x "Prt" = .report (evalPrt lib ms x) ∧
    (evalPrt lib ms x).totalMass = evalObj lib ms x ∧
    (evalPrt lib ms x).constraints = evalConst lib ms x := by
  refine ⟨?_, rfl, rfl, rfl, rfl⟩
  cases flag <;> rfl

end Sizing
